import Mathlib

/-!
Shallow embedding of the functionplus library (src/functionplus): the
`Function` wrapper class (`function.py`), its constructor, the binary
operator-lifting machinery (`core/dunder.py`: `DunderBinaryOperator`),
the composition operator (`Function.__matmul__` in `function.py` and the
descriptor-based `CompositionOperator.lop` in `core/dunder.py`), repeated
self-composition (`Function.composed`), hashing (`Function.__hash__`),
and name synthesis (`ops.get_funcname`).

Python values are modelled by a type parameter `V`; callables by Lean
functions `V → V` (a call site passes one positional argument).  Python
object identity for callable objects — which drives the `components`
provenance sets and `__hash__` — is modelled by the inductive `FnId`:
every distinct allocation site used in the development gets a distinct
constructor, so a closure freshly allocated by the library is never
identified with a pre-existing leaf callable.
-/

namespace FunctionPlus

/-- Identity of a Python callable object.  `leaf` ids name pre-existing
plain callables; the remaining constructors name closures allocated by the
library itself: the `lambda x: x` of `Function.id`, the `wrapper` closure
of `Function.__matmul__` and `CompositionOperator.lop` (carrying the ids
of the two composed callables it captures), and the `wrapper` closure of
`DunderBinaryOperator.op` (tagged by its synthesized name). -/
inductive FnId : Type where
  | leaf : Nat → FnId
  | idLam : FnId
  | compClosure : FnId → FnId → FnId
  | opClosure : String → FnId
  deriving DecidableEq

/-- The `Function` wrapper (src/functionplus/function.py).  `functionId`
is the identity of the wrapped callable object `self.function`,
`functionName` that object's own `__name__` attribute, `function` its
call behaviour, `name` the wrapper's `__name__` (read and written by the
`name` property), and `components` the provenance set `self.components`,
holding identities of callable objects. -/
structure Function (V : Type) where
  functionId : FnId
  functionName : String
  function : V → V
  name : String
  components : Finset FnId

/-- A Python object as the library sees it: a non-callable value, a plain
callable (with identity and `__name__`), or a `Function` wrapper. -/
inductive PyObj (V : Type) where
  | const : V → PyObj V
  | rawFn : FnId → String → (V → V) → PyObj V
  | func : Function V → PyObj V

/-- Python's `callable` test on a `PyObj`. -/
def PyObj.callableB {V : Type} : PyObj V → Bool
  | .const _ => false
  | .rawFn _ _ _ => true
  | .func _ => true

/-- Calling a `PyObj`: a plain callable or a wrapper is invoked (a wrapper
call forwards to `self.function`, `Function.__call__` lines 74-77); a
non-callable evaluates to itself, matching how `binary_calls` passes a
non-callable operand through unchanged. -/
def PyObj.eval {V : Type} : PyObj V → V → V
  | .const v, _ => v
  | .rawFn _ _ f, x => f x
  | .func w, x => w.function x

/-- `ops.get_funcname` (src/functionplus/core/ops.py, lines 34-41): the
`__name__` of the object — a wrapper's `name`, a plain callable's own
`__name__` — falling back to `str(obj)` for an object without one. -/
def get_funcname {V : Type} [ToString V] : PyObj V → String
  | .const v => toString v
  | .rawFn _ nm _ => nm
  | .func w => w.name

/-- `Function.__init__` (src/functionplus/function.py, lines 27-56).  A
passed-in wrapper is unwrapped to its underlying callable; a non-callable
target raises `TypeError`; `functools.update_wrapper` copies the target's
`__name__` onto the wrapper, after which an explicit `name` argument
overrides it; `components` is initialised to the singleton of the
unwrapped callable.  (For a wrapper argument with no explicit name, the
`update_wrapper` call on line 50 overwrites the name inherited on line 44
with the underlying callable's own `__name__`, so the default name in the
`func` branch is `w.functionName`.) -/
def Function.init {V : Type} [ToString V] (function : PyObj V) (name : Option String) :
    Except String (Function V) :=
  match function with
  | .const v => Except.error (toString v ++ " is not callable")
  | .rawFn i fn f =>
      Except.ok { functionId := i, functionName := fn, function := f,
                  name := name.getD fn, components := {i} }
  | .func w =>
      Except.ok { functionId := w.functionId, functionName := w.functionName,
                  function := w.function, name := name.getD w.functionName,
                  components := {w.functionId} }

/-- The always-successful case of `Function.__init__` on a plain callable
with no explicit name, as the operator machinery uses it
(`h = cls(wrapper)` / `return self.__class__(wrapper)`). -/
def Function.ofRaw {V : Type} (i : FnId) (fn : String) (f : V → V) : Function V :=
  { functionId := i, functionName := fn, function := f, name := fn, components := {i} }

/-- `Function.__init__` on a plain callable with no explicit name reduces
to `Function.ofRaw`. -/
theorem Function.init_rawFn {V : Type} [ToString V] (i : FnId) (fn : String) (f : V → V) :
    Function.init (PyObj.rawFn i fn f) none = Except.ok (Function.ofRaw i fn f) := rfl

/-- `Function.id` (src/functionplus/function.py, lines 187-191):
`cls(lambda x: x, name)`; the lambda's own `__name__` is `"<lambda>"`. -/
def Function.id {V : Type} (name : String) : Function V :=
  { functionId := FnId.idLam, functionName := "<lambda>",
    function := fun x => x, name := name, components := {FnId.idLam} }

/-- `DunderOperator.get_components` (src/functionplus/core/dunder.py,
lines 37-41): a non-callable contributes the empty set; a callable
without a `components` attribute contributes the singleton of itself; a
wrapper contributes its `components`. -/
def DunderOperator.get_components {V : Type} : PyObj V → Finset FnId
  | .const _ => ∅
  | .rawFn i _ _ => {i}
  | .func w => w.components

/-- `DunderBinaryOperator.binary_calls` (src/functionplus/core/dunder.py,
lines 74-101).  The source branches on `callable(f)` and `callable(g)`:
both callable → call both on the arguments; only one callable → call it
and pass the other operand through unchanged; neither → pass both
through.  The four match arms below are those four branches (a `PyObj` is
non-callable exactly when it is a `const`). -/
def DunderBinaryOperator.binary_calls {V : Type} (f g : PyObj V) (x : V) : V × V :=
  match f, g with
  | .const a, .const b => (a, b)
  | .const a, g => (a, g.eval x)
  | f, .const b => (f.eval x, b)
  | f, g => (f.eval x, g.eval x)

/-- `DunderBinaryOperator.op` (src/functionplus/core/dunder.py, lines
103-125) for operator `bop` displayed as `symbol`: builds the `wrapper`
closure, synthesizes `"(<f_name> <symbol> <g_name>)"` via `get_funcname`,
constructs `h = cls(wrapper)` and overwrites `h.components` with the
union of the operands' component sets.  In the source the `is_rop` branch
on lines 107-108 assigns `calls = binary_calls(fother, fself, ...)`, but
line 109 unconditionally reassigns `calls = binary_calls(fself, fother,
...)`, so the reversed variant computes the same operand order as the
forward one; the embedding keeps the final value of `calls`, and `is_rop`
therefore does not influence the result. -/
def DunderBinaryOperator.op {V : Type} [ToString V] (is_rop : Bool) (bop : V → V → V)
    (symbol : String) (fself fother : PyObj V) : Function V :=
  let wrapper : V → V := fun x =>
    let calls := DunderBinaryOperator.binary_calls fself fother x
    bop calls.1 calls.2
  let f_name := get_funcname fself
  let g_name := get_funcname fother
  let new_name := "(" ++ f_name ++ " " ++ symbol ++ " " ++ g_name ++ ")"
  let h := Function.ofRaw (FnId.opClosure new_name) new_name wrapper
  { h with
    components := DunderOperator.get_components fself ∪ DunderOperator.get_components fother }

/-- Result of `Function.__matmul__` / `CompositionOperator.lop`: either an
immediately computed value (non-callable right operand) or a new
wrapper. -/
inductive MatmulResult (V : Type) where
  | value : V → MatmulResult V
  | fn : Function V → MatmulResult V

/-- The wrapper-building branch of `Function.__matmul__`
(src/functionplus/function.py, lines 93-105) for a callable `Function`
operand, split out so the loop of `composed` (whose operand is always the
callable `self`) can use it directly: builds the composition `wrapper`
closure named `"<g_name>; <f_name>"` and returns `self.__class__(wrapper)`
— a fresh wrapper whose `components` is the singleton of the new closure,
since `__matmul__` never overwrites `components`. -/
def Function.matmulFn {V : Type} (self w : Function V) : Function V :=
  let new_name := w.name ++ "; " ++ self.name
  Function.ofRaw (FnId.compClosure self.functionId w.functionId) new_name
    (fun x => self.function (w.function x))

/-- `Function.__matmul__` (src/functionplus/function.py, lines 79-105):
unwrap both sides; if the right operand is not callable, return the value
`f(g)` immediately; otherwise build the composition wrapper (the
`try/except TypeError` around `self.__class__(wrapper)` never fires since
`wrapper` is callable). -/
def Function.matmul {V : Type} (self : Function V) (other : PyObj V) : MatmulResult V :=
  match other with
  | .const v => MatmulResult.value (self.function v)
  | .rawFn i g_name g =>
      let new_name := g_name ++ "; " ++ self.name
      MatmulResult.fn (Function.ofRaw (FnId.compClosure self.functionId i) new_name
        (fun x => self.function (g x)))
  | .func w => MatmulResult.fn (Function.matmulFn self w)

/-- `CompositionOperator.lop` (src/functionplus/core/dunder.py, lines
136-164): same unwrapping, constant case and composition wrapper as
`Function.__matmul__`, but line 161 then overwrites `h.components` with
`get_components(fself) | get_components(fother)`. -/
def CompositionOperator.lop {V : Type} (fself : Function V) (fother : PyObj V) :
    MatmulResult V :=
  match fother with
  | .const v => MatmulResult.value (fself.function v)
  | .rawFn i g_name g =>
      let new_name := g_name ++ "; " ++ fself.name
      let h := Function.ofRaw (FnId.compClosure fself.functionId i) new_name
        (fun x => fself.function (g x))
      MatmulResult.fn { h with
        components := fself.components ∪
          DunderOperator.get_components (PyObj.rawFn i g_name g) }
  | .func w =>
      let new_name := w.name ++ "; " ++ fself.name
      let h := Function.ofRaw (FnId.compClosure fself.functionId w.functionId) new_name
        (fun x => fself.function (w.function x))
      MatmulResult.fn { h with
        components := fself.components ∪ DunderOperator.get_components (PyObj.func w) }

/-- The loop of `Function.composed` (src/functionplus/function.py, lines
139-143): `g = self`, then `g @= self` once per iteration (`k` is the
number of iterations, `n - 1` for `composed(n)` with `n ≥ 1`).  The
operand is the callable wrapper `self`, so every step takes the
wrapper-building branch `Function.matmulFn` of `__matmul__`. -/
def Function.composedLoop {V : Type} (self : Function V) : Nat → Function V
  | 0 => self
  | k + 1 => Function.matmulFn (Function.composedLoop self k) self

/-- `Function.composed` (src/functionplus/function.py, lines 130-143):
negative `n` raises `ValueError("n must be a non-negative integer")`,
`n = 0` returns `self.id()` (default name `"id"`), and `n ≥ 1` folds
`g @= self` over `range(n - 1)`. -/
def Function.composed {V : Type} (self : Function V) (n : Int) : Except String (Function V) :=
  if n < 0 then Except.error ("n must be a non-negative integer")
  else if n = 0 then Except.ok (Function.id ("id"))
  else Except.ok (Function.composedLoop self (n - 1).toNat)

/-- `Function.__hash__` (src/functionplus/function.py, lines 71-72):
`hash(self.function)`.  `hashf` models the host hash on callable object
identities (plain Python functions hash by object identity). -/
def Function.pyhash {V : Type} (hashf : FnId → Int) (self : Function V) : Int :=
  hashf self.functionId

/-- Sample wrapper over a single plain leaf callable adding one,
`Function(incr)` with `incr = lambda v: v + 1` named `"incr"`. -/
def incrFn : Function Int := Function.ofRaw (FnId.leaf 0) ("incr") (fun v => v + 1)

/-- Models Python's `**` on machine integers for the non-negative
exponents exercised here. -/
def intPow (a b : Int) : Int := a ^ b.toNat

/-- The identity wrapper named `"x"` of the spec's concrete scenario. -/
def xId : Function Int := Function.id ("x")

/-- `x ** 3`: Python invokes `Function.__pow__(x, 3)`, the forward lift of
`operator.pow` with symbol `"**"`. -/
def xCubed : Function Int :=
  DunderBinaryOperator.op false intPow ("**") (PyObj.func xId) (PyObj.const 3)

/-- `2 * x**3`: `int.__mul__(2, x**3)` returns `NotImplemented`, so Python
invokes the reversed lift `(x**3).__rmul__(2)` — `DunderBinaryOperator.op`
with `is_rop = True`, receiver `x**3`, other operand `2`. -/
def twoTimesXCubed : Function Int :=
  DunderBinaryOperator.op true (fun a b => a * b) ("*") (PyObj.func xCubed) (PyObj.const 2)

/-- C1: for every supported binary operator `bop`, operands `f` and `g`
(wrappers or plain values) and call argument `x`, the lifted wrapper
applies `bop` to `f(x)` and `g(x)` when both are callable, to `f(x)` and
the literal `g` when only `f` is callable, to the literal `f` and `g(x)`
when only `g` is callable, and to the two literals when neither is. -/
theorem binary_lift_cases {V : Type} [ToString V] (bop : V → V → V) (symbol : String)
    (f g : PyObj V) (x : V) :
    (f.callableB = true → g.callableB = true →
      (DunderBinaryOperator.op false bop symbol f g).function x = bop (f.eval x) (g.eval x))
  ∧ (∀ b, g = PyObj.const b → f.callableB = true →
      (DunderBinaryOperator.op false bop symbol f g).function x = bop (f.eval x) b)
  ∧ (∀ a, f = PyObj.const a → g.callableB = true →
      (DunderBinaryOperator.op false bop symbol f g).function x = bop a (g.eval x))
  ∧ (∀ a b, f = PyObj.const a → g = PyObj.const b →
      (DunderBinaryOperator.op false bop symbol f g).function x = bop a b) := by
  cases f <;> cases g <;>
    simp [DunderBinaryOperator.op, DunderBinaryOperator.binary_calls, PyObj.eval,
      PyObj.callableB, Function.ofRaw]

/-- Witness for C1: the four callability cases of the lift of integer
subtraction, evaluated at concrete operands and argument. -/
theorem binary_lift_cases_witness :
    (DunderBinaryOperator.op false (fun a b => a - b) ("-") (PyObj.func incrFn)
        (PyObj.func incrFn)).function 3 = 0
  ∧ (DunderBinaryOperator.op false (fun a b => a - b) ("-") (PyObj.func incrFn)
        (PyObj.const 10)).function 3 = -6
  ∧ (DunderBinaryOperator.op false (fun a b => a - b) ("-") (PyObj.const 10)
        (PyObj.func incrFn)).function 3 = 6
  ∧ (DunderBinaryOperator.op false (fun a b => a - b) ("-") (PyObj.const (10 : Int))
        (PyObj.const 4)).function 3 = 6 := by
  refine ⟨?_, ?_, ?_, ?_⟩
  · have h := (binary_lift_cases (fun a b => a - b) ("-") (PyObj.func incrFn)
      (PyObj.func incrFn) 3).1 rfl rfl
    rw [h]; decide
  · have h := (binary_lift_cases (fun a b => a - b) ("-") (PyObj.func incrFn)
      (PyObj.const 10) 3).2.1 10 rfl rfl
    rw [h]; decide
  · have h := (binary_lift_cases (fun a b => a - b) ("-") (PyObj.const 10)
      (PyObj.func incrFn) 3).2.2.1 10 rfl rfl
    rw [h]; decide
  · have h := (binary_lift_cases (fun a b => a - b) ("-") (PyObj.const (10 : Int))
      (PyObj.const 4) 3).2.2.2 10 4 rfl rfl
    rw [h]; decide

/-- C2: for callable wrappers `f` and `g`, the composition `f @ g`
produces a new wrapper `h` with `h(x) = f(g(x))` — the right-hand side is
applied first — both in `Function.__matmul__` and in the descriptor-based
`CompositionOperator.lop`. -/
theorem matmul_composes {V : Type} (f g : Function V) :
    (∃ h, Function.matmul f (PyObj.func g) = MatmulResult.fn h ∧
      ∀ x, h.function x = f.function (g.function x))
  ∧ (∃ h, CompositionOperator.lop f (PyObj.func g) = MatmulResult.fn h ∧
      ∀ x, h.function x = f.function (g.function x)) :=
  ⟨⟨Function.matmulFn f g, rfl, fun _ => rfl⟩, ⟨_, rfl, fun _ => rfl⟩⟩

/-- C3 (code bug, evaluated at the failing input `h = f @ f` with `f` a
single-leaf wrapper): `Function.__matmul__` returns
`self.__class__(wrapper)` without overwriting `components`, so the
composite's components is the singleton of the freshly allocated
composition closure, not the union of the operands' components required
by the invariant; the descriptor-based `CompositionOperator.lop` (which
the repo's `test_components` and the spec's canonical policy expect) does
produce the union. -/
theorem matmul_components_bug :
    Function.matmul incrFn (PyObj.func incrFn)
      = MatmulResult.fn (Function.matmulFn incrFn incrFn)
  ∧ (Function.matmulFn incrFn incrFn).components ≠ incrFn.components ∪ incrFn.components
  ∧ (∃ h, CompositionOperator.lop incrFn (PyObj.func incrFn) = MatmulResult.fn h ∧
      h.components = incrFn.components ∪ incrFn.components) :=
  ⟨rfl, by decide, ⟨_, rfl, rfl⟩⟩

/-- C4 (code bug, evaluated at the failing input `(2 - f)(5)` with `f` the
identity wrapper): in `DunderBinaryOperator.op` the reversed variant's
swapped `binary_calls(fother, fself, ...)` result is overwritten by the
unconditional `calls = binary_calls(fself, fother, ...)` on the next
line, so `f.__rsub__(2)` called at `x = 5` computes `f(5) - 2 = 3`
instead of the claimed swapped order `2 - f(5) = -3`. -/
theorem rop_operands_not_swapped :
    (DunderBinaryOperator.op true (fun a b => a - b) ("-") (PyObj.func xId)
      (PyObj.const 2)).function 5 = 3
  ∧ (2 : Int) - xId.function 5 = -3 := by
  constructor
  · decide
  · decide

/-- C5: composing with a non-callable `g` does not produce a wrapper —
`f @ g` immediately evaluates to the value `f(g)`, both in
`Function.__matmul__` and in `CompositionOperator.lop`. -/
theorem matmul_constant_applies {V : Type} (f : Function V) (v : V) :
    Function.matmul f (PyObj.const v) = MatmulResult.value (f.function v)
  ∧ CompositionOperator.lop f (PyObj.const v) = MatmulResult.value (f.function v) :=
  ⟨rfl, rfl⟩

/-- Helper for C6: after `k` iterations of `g @= self` the wrapper
computes the `(k + 1)`-fold iterate of `self.function`. -/
theorem composedLoop_function {V : Type} (f : Function V) :
    ∀ (k : Nat) (x : V), (Function.composedLoop f k).function x = (f.function)^[k + 1] x := by
  intro k
  induction k with
  | zero => intro x; simp [Function.composedLoop]
  | succ k ih =>
      intro x
      have h1 : (Function.composedLoop f (k + 1)).function x
          = (Function.composedLoop f k).function (f.function x) := rfl
      rw [h1, ih (f.function x)]
      exact (Function.iterate_succ_apply f.function (k + 1) x).symm

/-- C6: for every `n ≥ 0`, `composed(n)` succeeds and returns a wrapper
applying `f` exactly `n` times; in particular `composed(0)` is the
identity wrapper. -/
theorem composed_iterates {V : Type} (f : Function V) (n : Int) (hn : 0 ≤ n) :
    ∃ h, Function.composed f n = Except.ok h ∧
      ∀ x, h.function x = (f.function)^[n.toNat] x := by
  by_cases h0 : n = 0
  · subst h0
    exact ⟨Function.id ("id"), rfl, fun x => rfl⟩
  · have h1 : ¬ n < 0 := by omega
    refine ⟨Function.composedLoop f (n - 1).toNat, ?_, ?_⟩
    · simp [Function.composed, h1, h0]
    · intro x
      have ht : (n - 1).toNat + 1 = n.toNat := by omega
      rw [composedLoop_function f (n - 1).toNat x, ht]

/-- Witness for C6: `incr.composed(3)` applied to `0` gives `3`. -/
theorem composed_iterates_witness :
    (0 : Int) ≤ 3 ∧ ∃ h, Function.composed incrFn 3 = Except.ok h ∧ h.function 0 = 3 := by
  refine ⟨by decide, ?_⟩
  obtain ⟨h, hok, hfun⟩ := composed_iterates incrFn 3 (by decide)
  refine ⟨h, hok, ?_⟩
  rw [hfun 0]
  decide

/-- C7 counterexample: `2 * x**3` is evaluated by Python as
`(x**3).__rmul__(2)`, and `DunderBinaryOperator.op` synthesizes the name
with the dunder receiver first even for reversed operators, so the
wrapper's name is `"((x ** 3) * 2)"`, not the claimed
`"(2 * (x ** 3))"`. -/
theorem rop_name_counterexample :
    twoTimesXCubed.name = "((x ** 3) * 2)"
  ∧ twoTimesXCubed.name ≠ "(2 * (x ** 3))" := by
  constructor
  · decide
  · decide

/-- C7 amended: a wrapper built by `DunderBinaryOperator.op` is named
`"(<receiver name> <symbol> <other name>)"` — with the dunder receiver's
name first for forward and reversed invocations alike, non-callable
operands contributing their string representation — so `f = 2 * x**3`
satisfies `f(5) = 250` and `f.name = "((x ** 3) * 2)"`. -/
theorem name_synthesis_amended :
    (∀ (V : Type) [ToString V] (is_rop : Bool) (bop : V → V → V)
      (symbol : String) (f g : PyObj V),
      (DunderBinaryOperator.op is_rop bop symbol f g).name =
        "(" ++ get_funcname f ++ " " ++ symbol ++ " " ++ get_funcname g ++ ")")
  ∧ twoTimesXCubed.function 5 = 250
  ∧ twoTimesXCubed.name = "((x ** 3) * 2)" := by
  refine ⟨?_, by decide, by decide⟩
  intro V instV is_rop bop symbol f g
  rfl

/-- C8: constructing a wrapper over a non-callable (every wrapper operand
unwraps to a callable, so the non-callable arguments are exactly the
`const` objects) fails immediately with the `TypeError` message and
produces no wrapper, while every callable argument constructs
successfully. -/
theorem init_noncallable_error {V : Type} [ToString V] (nm : Option String) :
    (∀ v : V, Function.init (PyObj.const v) nm
      = Except.error (toString v ++ " is not callable"))
  ∧ (∀ obj : PyObj V, obj.callableB = true → ∃ w, Function.init obj nm = Except.ok w) := by
  refine ⟨fun v => rfl, fun obj hc => ?_⟩
  cases obj with
  | const v => simp [PyObj.callableB] at hc
  | rawFn i n f => exact ⟨_, rfl⟩
  | func w => exact ⟨_, rfl⟩

/-- Witness for C8: wrapping the integer `7` fails with the `TypeError`
message, while wrapping the callable `incrFn` succeeds. -/
theorem init_noncallable_error_witness :
    Function.init (PyObj.const (7 : Int)) none
      = Except.error (toString (7 : Int) ++ " is not callable")
  ∧ ∃ w, Function.init (PyObj.func incrFn) none = Except.ok w :=
  ⟨(init_noncallable_error none).1 7,
   (init_noncallable_error none).2 (PyObj.func incrFn) rfl⟩

/-- C9: `composed(n)` raises its `ValueError` exactly when `n` is
negative — every non-negative `n` returns a wrapper. -/
theorem composed_error_iff {V : Type} (f : Function V) (n : Int) :
    Function.composed f n = Except.error ("n must be a non-negative integer") ↔ n < 0 := by
  by_cases h : n < 0
  · simp [Function.composed, h]
  · by_cases h0 : n = 0 <;> simp [Function.composed, h, h0]

/-- C10: a wrapper's hash is the hash of its underlying unwrapped
callable, so a wrapper built directly over a plain callable and a
re-wrapping of it — under any names — hash alike, and wrapping never
changes the callable's identity hash. -/
theorem hash_of_function {V : Type} [ToString V] (hashf : FnId → Int) (i : FnId)
    (fn : String) (f : V → V) (nm1 nm2 : Option String) :
    ∃ w1, Function.init (PyObj.rawFn i fn f) nm1 = Except.ok w1 ∧
      ∃ w2, Function.init (PyObj.func w1) nm2 = Except.ok w2 ∧
        Function.pyhash hashf w1 = hashf i ∧
        Function.pyhash hashf w2 = Function.pyhash hashf w1 :=
  ⟨_, rfl, _, rfl, rfl, rfl⟩

end FunctionPlus
